import Mathlib

/-!
Verification of the Grundsteuer savings calculator
(`grundsteuer_rechner.py` / `streamlit_app.py`).

The calculator works on Python `Decimal` values; all monetary inputs and
results are finite decimal fractions, which we embed as exact rationals
(`ℚ`).  `Decimal.quantize(Decimal("0.01"), ROUND_HALF_UP)` rounds to two
fractional digits with ties going away from zero; we embed it as `quant2`
below via the integer-valued `roundHalfUp` (the value in cents).
-/

namespace Grundsteuer

/-- `ROUND_HALF_UP` to an integer: round to the nearest integer, with ties
going away from zero (Python `decimal`'s `ROUND_HALF_UP`). -/
def roundHalfUp (x : ℚ) : ℤ :=
  if 0 ≤ x then ⌊x + 1 / 2⌋ else -⌊-x + 1 / 2⌋

/-- `quant2 x` embeds `d(x).quantize(EURO, rounding=ROUND_HALF_UP)`
(source line 31-33): round to 2 fractional digits, half away from zero. -/
def quant2 (x : ℚ) : ℚ :=
  (roundHalfUp (100 * x) : ℚ) / 100

/-- The `Inputs` dataclass (source lines 47-53). -/
structure Inputs where
  grundsteuerwert : ℚ
  messzahl_permille : ℚ
  hebesatz_prozent : ℚ
  years : ℤ
  custom_verkehrswert : Option ℚ

/-- The `Results` dataclass (source lines 55-65). -/
structure Results where
  steuer_status_quo : ℚ
  schwelle_40_prozent : ℚ
  steuer_beim_schwellenwert : ℚ
  ersparnis_pro_jahr_schwelle : ℚ
  ersparnis_gesamt_schwelle : ℚ
  steuer_beim_custom : Option ℚ
  ersparnis_pro_jahr_custom : Option ℚ
  ersparnis_gesamt_custom : Option ℚ

/-- `berechne` (source lines 67-100), the core computation. -/
def berechne (inputs : Inputs) : Results :=
  let gsw := inputs.grundsteuerwert
  let mess := inputs.messzahl_permille / 1000
  let heb := inputs.hebesatz_prozent / 100
  let years := inputs.years
  let steuer_now := quant2 (gsw * mess * heb)
  let vmax := quant2 (gsw / 1.4)
  let steuer_vmax := quant2 (vmax * mess * heb)
  let ersparnis_vmax_jahr := quant2 (steuer_now - steuer_vmax)
  let ersparnis_vmax_gesamt := quant2 (ersparnis_vmax_jahr * (years : ℚ))
  let res : Results :=
    { steuer_status_quo := steuer_now
      schwelle_40_prozent := vmax
      steuer_beim_schwellenwert := steuer_vmax
      ersparnis_pro_jahr_schwelle := ersparnis_vmax_jahr
      ersparnis_gesamt_schwelle := ersparnis_vmax_gesamt
      steuer_beim_custom := none
      ersparnis_pro_jahr_custom := none
      ersparnis_gesamt_custom := none }
  match inputs.custom_verkehrswert with
  | none => res
  | some custom =>
    let cv := custom
    let steuer_custom := quant2 (cv * mess * heb)
    let ersparnis_custom_jahr := quant2 (steuer_now - steuer_custom)
    let ersparnis_custom_gesamt := quant2 (ersparnis_custom_jahr * (years : ℚ))
    { res with
      steuer_beim_custom := some steuer_custom
      ersparnis_pro_jahr_custom := some ersparnis_custom_jahr
      ersparnis_gesamt_custom := some ersparnis_custom_gesamt }

/-- A rational is a "two-decimal-place" monetary value when it is an integer
number of cents. -/
def TwoDp (x : ℚ) : Prop := ∃ m : ℤ, x = (m : ℚ) / 100

theorem floor_intCast_add_half (m : ℤ) : ⌊(m : ℚ) + 1 / 2⌋ = m := by
  rw [Int.floor_eq_iff]
  constructor
  · linarith
  · linarith

theorem roundHalfUp_intCast (m : ℤ) : roundHalfUp (m : ℚ) = m := by
  unfold roundHalfUp
  rcases le_or_lt 0 (m : ℚ) with h | h
  · rw [if_pos h, floor_intCast_add_half]
  · rw [if_neg (not_le.mpr h)]
    have : (-(m : ℚ) + 1 / 2) = ((-m : ℤ) : ℚ) + 1 / 2 := by push_cast; ring
    rw [this, floor_intCast_add_half]
    ring

theorem quant2_of_twoDp {x : ℚ} (h : TwoDp x) : quant2 x = x := by
  obtain ⟨m, rfl⟩ := h
  unfold quant2
  rw [show (100 : ℚ) * ((m : ℚ) / 100) = (m : ℚ) by ring, roundHalfUp_intCast]

theorem quant2_twoDp (x : ℚ) : TwoDp (quant2 x) :=
  ⟨roundHalfUp (100 * x), rfl⟩

theorem quant2_zero : quant2 0 = 0 := by
  have : TwoDp (0 : ℚ) := ⟨0, by norm_num⟩
  simpa using quant2_of_twoDp this

/-- Evaluation rule for `quant2` on a nonnegative argument: the result is
`m` cents when `100 * x + 1/2` lies in `[m, m+1)`. -/
theorem quant2_eq (x : ℚ) (m : ℤ) (h0 : 0 ≤ x) (h1 : (m : ℚ) ≤ 100 * x + 1 / 2)
    (h2 : 100 * x + 1 / 2 < (m : ℚ) + 1) : quant2 x = (m : ℚ) / 100 := by
  unfold quant2 roundHalfUp
  rw [if_pos (by linarith : (0 : ℚ) ≤ 100 * x)]
  have : ⌊100 * x + 1 / 2⌋ = m := by
    rw [Int.floor_eq_iff]
    exact ⟨h1, by linarith⟩
  rw [this]

/-! ### Field-level unfolding of `berechne` -/

theorem berechne_steuer_status_quo (i : Inputs) :
    (berechne i).steuer_status_quo =
      quant2 (i.grundsteuerwert * (i.messzahl_permille / 1000) * (i.hebesatz_prozent / 100)) := by
  unfold berechne
  cases i.custom_verkehrswert <;> rfl

theorem berechne_schwelle (i : Inputs) :
    (berechne i).schwelle_40_prozent = quant2 (i.grundsteuerwert / 1.4) := by
  unfold berechne
  cases i.custom_verkehrswert <;> rfl

theorem berechne_steuer_schwelle (i : Inputs) :
    (berechne i).steuer_beim_schwellenwert =
      quant2 (quant2 (i.grundsteuerwert / 1.4) * (i.messzahl_permille / 1000) *
        (i.hebesatz_prozent / 100)) := by
  unfold berechne
  cases i.custom_verkehrswert <;> rfl

theorem berechne_ersparnis_jahr (i : Inputs) :
    (berechne i).ersparnis_pro_jahr_schwelle =
      quant2 ((berechne i).steuer_status_quo - (berechne i).steuer_beim_schwellenwert) := by
  unfold berechne
  cases i.custom_verkehrswert <;> rfl

theorem berechne_ersparnis_gesamt (i : Inputs) :
    (berechne i).ersparnis_gesamt_schwelle =
      quant2 ((berechne i).ersparnis_pro_jahr_schwelle * (i.years : ℚ)) := by
  unfold berechne
  cases i.custom_verkehrswert <;> rfl

theorem berechne_custom_none (i : Inputs) (h : i.custom_verkehrswert = none) :
    (berechne i).steuer_beim_custom = none ∧
      (berechne i).ersparnis_pro_jahr_custom = none ∧
      (berechne i).ersparnis_gesamt_custom = none := by
  unfold berechne
  rw [h]
  exact ⟨rfl, rfl, rfl⟩

theorem berechne_custom_some (i : Inputs) (cv : ℚ) (h : i.custom_verkehrswert = some cv) :
    (berechne i).steuer_beim_custom =
      some (quant2 (cv * (i.messzahl_permille / 1000) * (i.hebesatz_prozent / 100))) ∧
    (berechne i).ersparnis_pro_jahr_custom =
      some (quant2 ((berechne i).steuer_status_quo -
        quant2 (cv * (i.messzahl_permille / 1000) * (i.hebesatz_prozent / 100)))) ∧
    (berechne i).ersparnis_gesamt_custom =
      some (quant2 (quant2 ((berechne i).steuer_status_quo -
        quant2 (cv * (i.messzahl_permille / 1000) * (i.hebesatz_prozent / 100))) *
          (i.years : ℚ))) := by
  rw [berechne_steuer_status_quo]
  unfold berechne
  rw [h]
  exact ⟨rfl, rfl, rfl⟩

/-! ### Concrete scenario A (spec §8, property 5) -/

/-- Scenario A of the spec: `--gsw 1031600 --mess 0.31 --heb 470 --years 4`,
no custom value. -/
def inputsA : Inputs :=
  { grundsteuerwert := 1031600
    messzahl_permille := 0.31
    hebesatz_prozent := 470
    years := 4
    custom_verkehrswert := none }

theorem inputsA_steuer_status_quo : (berechne inputsA).steuer_status_quo = 1503.04 := by
  rw [berechne_steuer_status_quo]
  have h := quant2_eq ((1031600 : ℚ) * (0.31 / 1000) * (470 / 100)) 150304
    (by norm_num) (by norm_num) (by norm_num)
  rw [show inputsA.grundsteuerwert * (inputsA.messzahl_permille / 1000) *
      (inputsA.hebesatz_prozent / 100) =
      (1031600 : ℚ) * (0.31 / 1000) * (470 / 100) from rfl, h]
  norm_num

theorem inputsA_schwelle : (berechne inputsA).schwelle_40_prozent = 736857.14 := by
  rw [berechne_schwelle]
  have h := quant2_eq ((1031600 : ℚ) / 1.4) 73685714 (by norm_num) (by norm_num) (by norm_num)
  rw [show inputsA.grundsteuerwert / (1.4 : ℚ) = (1031600 : ℚ) / 1.4 from rfl, h]
  norm_num

theorem inputsA_steuer_schwelle :
    (berechne inputsA).steuer_beim_schwellenwert = 1073.60 := by
  rw [berechne_steuer_schwelle]
  have hs : quant2 (inputsA.grundsteuerwert / 1.4) = 736857.14 := by
    rw [← berechne_schwelle]
    exact inputsA_schwelle
  rw [hs]
  have h := quant2_eq ((736857.14 : ℚ) * (0.31 / 1000) * (470 / 100)) 107360
    (by norm_num) (by norm_num) (by norm_num)
  rw [show (736857.14 : ℚ) * (inputsA.messzahl_permille / 1000) *
      (inputsA.hebesatz_prozent / 100) =
      (736857.14 : ℚ) * (0.31 / 1000) * (470 / 100) from rfl, h]
  norm_num

theorem inputsA_ersparnis_jahr :
    (berechne inputsA).ersparnis_pro_jahr_schwelle = 429.44 := by
  rw [berechne_ersparnis_jahr, inputsA_steuer_status_quo, inputsA_steuer_schwelle]
  have h : TwoDp ((1503.04 : ℚ) - 1073.60) := ⟨42944, by norm_num⟩
  rw [quant2_of_twoDp h]
  norm_num

theorem inputsA_ersparnis_gesamt :
    (berechne inputsA).ersparnis_gesamt_schwelle = 1717.76 := by
  rw [berechne_ersparnis_gesamt, inputsA_ersparnis_jahr]
  have h : TwoDp ((429.44 : ℚ) * ((4 : ℤ) : ℚ)) := ⟨171776, by norm_num⟩
  rw [show (inputsA.years : ℚ) = ((4 : ℤ) : ℚ) from rfl, quant2_of_twoDp h]
  norm_num

/-- C1 (amended): in scenario A the computed current tax is 1503.04 (this is
`round2(1031600 × 0.00031 × 4.70)`), the threshold is 736857.14, the
threshold tax is `round2(736857.14 × 0.00031 × 4.70) = 1073.60`, and the
total savings over the 4 remaining years is
`4 × (tax_current − tax_at_threshold) = 1717.76`. -/
theorem claim1_scenarioA :
    (berechne inputsA).steuer_status_quo = 1503.04 ∧
    (berechne inputsA).steuer_status_quo = quant2 (1031600 * 0.00031 * 4.70) ∧
    (berechne inputsA).schwelle_40_prozent = 736857.14 ∧
    (berechne inputsA).steuer_beim_schwellenwert = quant2 (736857.14 * 0.00031 * 4.70) ∧
    (berechne inputsA).ersparnis_gesamt_schwelle =
      4 * ((berechne inputsA).steuer_status_quo -
        (berechne inputsA).steuer_beim_schwellenwert) := by
  refine ⟨inputsA_steuer_status_quo, ?_, inputsA_schwelle, ?_, ?_⟩
  · rw [inputsA_steuer_status_quo]
    have h := quant2_eq ((1031600 : ℚ) * 0.00031 * 4.70) 150304
      (by norm_num) (by norm_num) (by norm_num)
    rw [h]
    norm_num
  · rw [inputsA_steuer_schwelle]
    have h := quant2_eq ((736857.14 : ℚ) * 0.00031 * 4.70) 107360
      (by norm_num) (by norm_num) (by norm_num)
    rw [h]
    norm_num
  · rw [inputsA_ersparnis_gesamt, inputsA_steuer_status_quo, inputsA_steuer_schwelle]
    norm_num

/-- C1, counterexample to the claim as stated: the spec names
`tax_current = 1503.08` for scenario A, but the code computes 1503.04
(`1031600 × 0.00031 × 4.70 = 1503.0412`, which rounds to 1503.04). -/
theorem claim1_counterexample :
    (berechne inputsA).steuer_status_quo ≠ 1503.08 := by
  rw [inputsA_steuer_status_quo]
  norm_num

theorem TwoDp.sub {a b : ℚ} (ha : TwoDp a) (hb : TwoDp b) : TwoDp (a - b) := by
  obtain ⟨m, rfl⟩ := ha
  obtain ⟨n, rfl⟩ := hb
  exact ⟨m - n, by push_cast; ring⟩

theorem TwoDp.mul_int {a : ℚ} (ha : TwoDp a) (n : ℤ) : TwoDp (a * (n : ℚ)) := by
  obtain ⟨m, rfl⟩ := ha
  exact ⟨m * n, by push_cast; ring⟩

/-- C4 (confirmed): the per-year savings at the threshold is exactly the
difference of the already-rounded current tax and threshold tax (the final
`quant2` in the source is the identity there, because a difference of
whole-cent values is a whole-cent value), and the total savings is
`round2(per_year × years)` computed from the already-rounded per-year
value. -/
theorem claim4_savings (i : Inputs) :
    (berechne i).ersparnis_pro_jahr_schwelle =
      (berechne i).steuer_status_quo - (berechne i).steuer_beim_schwellenwert ∧
    (berechne i).ersparnis_gesamt_schwelle =
      quant2 ((berechne i).ersparnis_pro_jahr_schwelle * (i.years : ℚ)) := by
  refine ⟨?_, berechne_ersparnis_gesamt i⟩
  rw [berechne_ersparnis_jahr]
  apply quant2_of_twoDp
  apply TwoDp.sub
  · rw [berechne_steuer_status_quo]
    exact quant2_twoDp _
  · rw [berechne_steuer_schwelle]
    exact quant2_twoDp _

/-- C5 (confirmed): `quant2` rounds to 2 decimals with round-half-up
semantics: every exact midpoint between two cents, `±(10·j + 5)/1000`,
rounds to the next cent away from zero, i.e. `±(j + 1)/100` — not to the
round-half-to-even result. -/
theorem claim5_half_up (j : ℕ) :
    quant2 ((10 * (j : ℚ) + 5) / 1000) = ((j : ℚ) + 1) / 100 ∧
    quant2 (-((10 * (j : ℚ) + 5) / 1000)) = -(((j : ℚ) + 1) / 100) := by
  have hj : (0 : ℚ) ≤ (j : ℚ) := Nat.cast_nonneg j
  have hfl : ⌊(10 * (j : ℚ) + 5) / 10 + 1 / 2⌋ = (j : ℤ) + 1 := by
    rw [show (10 * (j : ℚ) + 5) / 10 + 1 / 2 = (((j : ℤ) + 1 : ℤ) : ℚ) by push_cast; ring]
    exact Int.floor_intCast _
  constructor
  · unfold quant2 roundHalfUp
    rw [if_pos (by positivity)]
    rw [show (100 : ℚ) * ((10 * (j : ℚ) + 5) / 1000) = (10 * (j : ℚ) + 5) / 10 + 1 / 2 - 1 / 2
        by ring]
    rw [show (10 * (j : ℚ) + 5) / 10 + 1 / 2 - 1 / 2 + 1 / 2 =
        (10 * (j : ℚ) + 5) / 10 + 1 / 2 by ring]
    rw [hfl]
    push_cast
    ring
  · unfold quant2 roundHalfUp
    have hpos : (0 : ℚ) < (10 * (j : ℚ) + 5) / 1000 := by positivity
    rw [if_neg (by simp only [mul_neg]; nlinarith)]
    rw [show -((100 : ℚ) * -((10 * (j : ℚ) + 5) / 1000)) + 1 / 2 =
        (10 * (j : ℚ) + 5) / 10 + 1 / 2 by ring]
    rw [hfl]
    push_cast
    ring

/-- C7 (confirmed): an omitted `custom_verkehrswert` leaves the three custom
fields of the result absent (`none`), while an explicitly supplied value of
0 populates them, with `tax_at_custom = 0` and
`savings_per_year_custom = tax_current`. -/
theorem claim7_custom_optional (i : Inputs) :
    (i.custom_verkehrswert = none →
      (berechne i).steuer_beim_custom = none ∧
      (berechne i).ersparnis_pro_jahr_custom = none ∧
      (berechne i).ersparnis_gesamt_custom = none) ∧
    (i.custom_verkehrswert = some 0 →
      (berechne i).steuer_beim_custom = some 0 ∧
      (berechne i).ersparnis_pro_jahr_custom = some ((berechne i).steuer_status_quo) ∧
      ((berechne i).ersparnis_gesamt_custom).isSome = true) := by
  refine ⟨berechne_custom_none i, ?_⟩
  intro h
  obtain ⟨h1, h2, h3⟩ := berechne_custom_some i 0 h
  have hz : quant2 ((0 : ℚ) * (i.messzahl_permille / 1000) * (i.hebesatz_prozent / 100)) = 0 := by
    rw [show (0 : ℚ) * (i.messzahl_permille / 1000) * (i.hebesatz_prozent / 100) = 0 by ring,
      quant2_zero]
  refine ⟨by rw [h1, hz], ?_, by rw [h3]; rfl⟩
  rw [h2, hz]
  congr 1
  rw [sub_zero]
  apply quant2_of_twoDp
  rw [berechne_steuer_status_quo]
  exact quant2_twoDp _

/-- C7, witness: scenario A omits the custom value and its result has no
custom tax; the same inputs with `custom_verkehrswert = some 0` produce
`tax_at_custom = 0` and `savings_per_year_custom = tax_current`. -/
theorem claim7_witness :
    (berechne inputsA).steuer_beim_custom = none ∧
    (berechne { inputsA with custom_verkehrswert := some 0 }).steuer_beim_custom = some 0 ∧
    (berechne { inputsA with custom_verkehrswert := some 0 }).ersparnis_pro_jahr_custom =
      some ((berechne { inputsA with custom_verkehrswert := some 0 }).steuer_status_quo) :=
  ⟨((claim7_custom_optional inputsA).1 rfl).1,
    ((claim7_custom_optional { inputsA with custom_verkehrswert := some 0 }).2 rfl).1,
    ((claim7_custom_optional { inputsA with custom_verkehrswert := some 0 }).2 rfl).2.1⟩

/-- C8 (confirmed): supplying a `custom_verkehrswert` changes no non-custom
field of the result; the three custom fields are `some` exactly when the
custom value is supplied, and are computed by the same formula shape with
the custom value substituted for the threshold value. -/
theorem claim8_frame (i : Inputs) (cv : ℚ) :
    (berechne { i with custom_verkehrswert := some cv }).steuer_status_quo =
      (berechne { i with custom_verkehrswert := none }).steuer_status_quo ∧
    (berechne { i with custom_verkehrswert := some cv }).schwelle_40_prozent =
      (berechne { i with custom_verkehrswert := none }).schwelle_40_prozent ∧
    (berechne { i with custom_verkehrswert := some cv }).steuer_beim_schwellenwert =
      (berechne { i with custom_verkehrswert := none }).steuer_beim_schwellenwert ∧
    (berechne { i with custom_verkehrswert := some cv }).ersparnis_pro_jahr_schwelle =
      (berechne { i with custom_verkehrswert := none }).ersparnis_pro_jahr_schwelle ∧
    (berechne { i with custom_verkehrswert := some cv }).ersparnis_gesamt_schwelle =
      (berechne { i with custom_verkehrswert := none }).ersparnis_gesamt_schwelle ∧
    (berechne { i with custom_verkehrswert := some cv }).steuer_beim_custom =
      some (quant2 (cv * (i.messzahl_permille / 1000) * (i.hebesatz_prozent / 100))) ∧
    (berechne { i with custom_verkehrswert := some cv }).ersparnis_pro_jahr_custom =
      some (quant2 ((berechne { i with custom_verkehrswert := some cv }).steuer_status_quo -
        quant2 (cv * (i.messzahl_permille / 1000) * (i.hebesatz_prozent / 100)))) ∧
    (berechne { i with custom_verkehrswert := some cv }).ersparnis_gesamt_custom =
      some (quant2 (quant2
        ((berechne { i with custom_verkehrswert := some cv }).steuer_status_quo -
          quant2 (cv * (i.messzahl_permille / 1000) * (i.hebesatz_prozent / 100))) *
        (i.years : ℚ))) ∧
    ((berechne i).steuer_beim_custom).isSome = i.custom_verkehrswert.isSome ∧
    ((berechne i).ersparnis_pro_jahr_custom).isSome = i.custom_verkehrswert.isSome ∧
    ((berechne i).ersparnis_gesamt_custom).isSome = i.custom_verkehrswert.isSome := by
  obtain ⟨hc1, hc2, hc3⟩ :=
    berechne_custom_some { i with custom_verkehrswert := some cv } cv rfl
  refine ⟨?_, ?_, ?_, ?_, ?_, hc1, hc2, hc3, ?_⟩
  · rw [berechne_steuer_status_quo, berechne_steuer_status_quo]
  · rw [berechne_schwelle, berechne_schwelle]
  · rw [berechne_steuer_schwelle, berechne_steuer_schwelle]
  · rw [berechne_ersparnis_jahr, berechne_ersparnis_jahr, berechne_steuer_status_quo,
      berechne_steuer_status_quo, berechne_steuer_schwelle, berechne_steuer_schwelle]
  · rw [berechne_ersparnis_gesamt, berechne_ersparnis_gesamt, berechne_ersparnis_jahr,
      berechne_ersparnis_jahr, berechne_steuer_status_quo, berechne_steuer_status_quo,
      berechne_steuer_schwelle, berechne_steuer_schwelle]
  · cases hc : i.custom_verkehrswert with
    | none =>
      obtain ⟨h1, h2, h3⟩ := berechne_custom_none i hc
      rw [h1, h2, h3]
      exact ⟨rfl, rfl, rfl⟩
    | some c =>
      obtain ⟨h1, h2, h3⟩ := berechne_custom_some i c hc
      rw [h1, h2, h3]
      exact ⟨rfl, rfl, rfl⟩

/-- C9 (confirmed): every monetary field of the result is a whole number of
cents (exactly 2 fractional digits, produced by the half-up rounding
`quant2` at the point it is finalized), the custom fields included when
present; and for `grundsteuerwert = 0` every non-custom field is 0. -/
theorem claim9_invariant (i : Inputs) :
    TwoDp (berechne i).steuer_status_quo ∧
    TwoDp (berechne i).schwelle_40_prozent ∧
    TwoDp (berechne i).steuer_beim_schwellenwert ∧
    TwoDp (berechne i).ersparnis_pro_jahr_schwelle ∧
    TwoDp (berechne i).ersparnis_gesamt_schwelle ∧
    (∀ y, (berechne i).steuer_beim_custom = some y → TwoDp y) ∧
    (∀ y, (berechne i).ersparnis_pro_jahr_custom = some y → TwoDp y) ∧
    (∀ y, (berechne i).ersparnis_gesamt_custom = some y → TwoDp y) ∧
    (i.grundsteuerwert = 0 →
      (berechne i).steuer_status_quo = 0 ∧
      (berechne i).schwelle_40_prozent = 0 ∧
      (berechne i).steuer_beim_schwellenwert = 0 ∧
      (berechne i).ersparnis_pro_jahr_schwelle = 0 ∧
      (berechne i).ersparnis_gesamt_schwelle = 0) := by
  have hnow : TwoDp (berechne i).steuer_status_quo := by
    rw [berechne_steuer_status_quo]; exact quant2_twoDp _
  have hsch : TwoDp (berechne i).schwelle_40_prozent := by
    rw [berechne_schwelle]; exact quant2_twoDp _
  have hst : TwoDp (berechne i).steuer_beim_schwellenwert := by
    rw [berechne_steuer_schwelle]; exact quant2_twoDp _
  have hej : TwoDp (berechne i).ersparnis_pro_jahr_schwelle := by
    rw [berechne_ersparnis_jahr]; exact quant2_twoDp _
  have heg : TwoDp (berechne i).ersparnis_gesamt_schwelle := by
    rw [berechne_ersparnis_gesamt]; exact quant2_twoDp _
  refine ⟨hnow, hsch, hst, hej, heg, ?_, ?_, ?_, ?_⟩
  · intro y hy
    cases hc : i.custom_verkehrswert with
    | none => rw [(berechne_custom_none i hc).1] at hy; exact absurd hy (by simp)
    | some c =>
      rw [(berechne_custom_some i c hc).1] at hy
      obtain rfl : quant2 (c * (i.messzahl_permille / 1000) * (i.hebesatz_prozent / 100)) = y :=
        Option.some_injective ℚ hy
      exact quant2_twoDp _
  · intro y hy
    cases hc : i.custom_verkehrswert with
    | none => rw [(berechne_custom_none i hc).2.1] at hy; exact absurd hy (by simp)
    | some c =>
      rw [(berechne_custom_some i c hc).2.1] at hy
      obtain rfl := Option.some_injective ℚ hy
      exact quant2_twoDp _
  · intro y hy
    cases hc : i.custom_verkehrswert with
    | none => rw [(berechne_custom_none i hc).2.2] at hy; exact absurd hy (by simp)
    | some c =>
      rw [(berechne_custom_some i c hc).2.2] at hy
      obtain rfl := Option.some_injective ℚ hy
      exact quant2_twoDp _
  · intro h0
    have e1 : (berechne i).steuer_status_quo = 0 := by
      rw [berechne_steuer_status_quo, h0, zero_mul, zero_mul, quant2_zero]
    have e2 : (berechne i).schwelle_40_prozent = 0 := by
      rw [berechne_schwelle, h0, zero_div, quant2_zero]
    have e3 : (berechne i).steuer_beim_schwellenwert = 0 := by
      rw [berechne_steuer_schwelle, h0, zero_div, quant2_zero, zero_mul, zero_mul, quant2_zero]
    have e4 : (berechne i).ersparnis_pro_jahr_schwelle = 0 := by
      rw [berechne_ersparnis_jahr, e1, e3, sub_zero, quant2_zero]
    have e5 : (berechne i).ersparnis_gesamt_schwelle = 0 := by
      rw [berechne_ersparnis_gesamt, e4, zero_mul, quant2_zero]
    exact ⟨e1, e2, e3, e4, e5⟩

/-- C9, witness: at `grundsteuerwert = 0` with `custom_verkehrswert = 5 €`
the current tax is a two-decimal value and equals 0, and the custom tax
`round2(5 × 0.00031 × 4.70) = 0.01` is a two-decimal value. -/
theorem claim9_witness :
    TwoDp (berechne ⟨0, 0.31, 470, 4, some 5⟩).steuer_status_quo ∧
    (berechne ⟨0, 0.31, 470, 4, some 5⟩).steuer_status_quo = 0 ∧
    TwoDp ((1 : ℚ) / 100) := by
  have h := claim9_invariant ⟨0, 0.31, 470, 4, some 5⟩
  refine ⟨h.1, (h.2.2.2.2.2.2.2.2 rfl).1, ?_⟩
  apply h.2.2.2.2.2.1 ((1 : ℚ) / 100)
  obtain ⟨h1, _, _⟩ := berechne_custom_some ⟨0, 0.31, 470, 4, some 5⟩ 5 rfl
  rw [h1]
  have hq := quant2_eq ((5 : ℚ) * (0.31 / 1000) * (470 / 100)) 1
    (by norm_num) (by norm_num) (by norm_num)
  rw [show (5 : ℚ) * ((⟨0, 0.31, 470, 4, some 5⟩ : Inputs).messzahl_permille / 1000) *
      ((⟨0, 0.31, 470, 4, some 5⟩ : Inputs).hebesatz_prozent / 100) =
      (5 : ℚ) * (0.31 / 1000) * (470 / 100) from rfl, hq]
  norm_num

/-- Division with an explicit failure case, used to make the fallibility of
each division in `berechne` visible: Python `Decimal` division raises
`DivisionByZero` exactly when the divisor is 0. -/
def checkedDiv (a b : ℚ) : Option ℚ :=
  if b = 0 then none else some (a / b)

/-- `berechne` with every division routed through `checkedDiv`; the rest of
the computation is the same as `berechne`. -/
def berechneE (inputs : Inputs) : Option Results := do
  let gsw := inputs.grundsteuerwert
  let mess ← checkedDiv inputs.messzahl_permille 1000
  let heb ← checkedDiv inputs.hebesatz_prozent 100
  let years := inputs.years
  let steuer_now := quant2 (gsw * mess * heb)
  let q ← checkedDiv gsw 1.4
  let vmax := quant2 q
  let steuer_vmax := quant2 (vmax * mess * heb)
  let ersparnis_vmax_jahr := quant2 (steuer_now - steuer_vmax)
  let ersparnis_vmax_gesamt := quant2 (ersparnis_vmax_jahr * (years : ℚ))
  let res : Results :=
    { steuer_status_quo := steuer_now
      schwelle_40_prozent := vmax
      steuer_beim_schwellenwert := steuer_vmax
      ersparnis_pro_jahr_schwelle := ersparnis_vmax_jahr
      ersparnis_gesamt_schwelle := ersparnis_vmax_gesamt
      steuer_beim_custom := none
      ersparnis_pro_jahr_custom := none
      ersparnis_gesamt_custom := none }
  match inputs.custom_verkehrswert with
  | none => pure res
  | some custom =>
    let cv := custom
    let steuer_custom := quant2 (cv * mess * heb)
    let ersparnis_custom_jahr := quant2 (steuer_now - steuer_custom)
    let ersparnis_custom_gesamt := quant2 (ersparnis_custom_jahr * (years : ℚ))
    pure { res with
      steuer_beim_custom := some steuer_custom
      ersparnis_pro_jahr_custom := some ersparnis_custom_jahr
      ersparnis_gesamt_custom := some ersparnis_custom_gesamt }

/-- The divisions of `berechne` are by the fixed nonzero constants 1000,
100 and 1.4, so the division-failure-aware version always succeeds and
returns exactly `berechne`'s result. -/
theorem berechneE_eq (i : Inputs) : berechneE i = some (berechne i) := by
  unfold berechneE berechne checkedDiv
  simp only [if_neg (by norm_num : ¬ (1000 : ℚ) = 0), if_neg (by norm_num : ¬ (100 : ℚ) = 0),
    if_neg (by norm_num : ¬ (1.4 : ℚ) = 0)]
  cases i.custom_verkehrswert <;> rfl

/-! ### Currency formatting (`eur`, source lines 35-45)

`f"{xq:.2f}"` renders the quantized value with a optional leading `-`,
the integer part in decimal digits (at least one), `.`, and exactly two
fraction digits.  We model the digit strings explicitly with `digitChar`,
`wholeChars` and `twoFrac`, the chunking of the reversed integer part with
`chunks3`, and `".".join` with `joinSep`. -/

/-- The character for the decimal digit `d` (`'0'`–`'9'` for `d < 10`). -/
def digitChar (d : ℕ) : Char := Char.ofNat (48 + d)

/-- Fuel-indexed digit rendering, most significant digit first. -/
def wholeCharsAux : ℕ → ℕ → List Char
  | 0, _ => []
  | fuel + 1, n =>
    if n < 10 then [digitChar n] else wholeCharsAux fuel (n / 10) ++ [digitChar (n % 10)]

/-- Decimal digit characters of `n`, most significant first (so `"0"` for
0), as Python renders a nonnegative integer. -/
def wholeChars (n : ℕ) : List Char := wholeCharsAux (n + 1) n

/-- The two fraction digits of a cent remainder `r < 100`. -/
def twoFrac (r : ℕ) : List Char := [digitChar (r / 10), digitChar (r % 10)]

/-- `f"{xq:.2f}"` for a quantized value of `n` cents: optional sign, the
integer euro part, `'.'`, two fraction digits. -/
def fmt2 (n : ℤ) : List Char :=
  (if n < 0 then ['-'] else []) ++ wholeChars (n.natAbs / 100) ++ '.' :: twoFrac (n.natAbs % 100)

/-- Fuel-indexed version of `[rev[i:i+3] for i in range(0, len(rev), 3)]`. -/
def chunks3Aux : ℕ → List Char → List (List Char)
  | 0, _ => []
  | _ + 1, [] => []
  | fuel + 1, l => l.take 3 :: chunks3Aux fuel (l.drop 3)

/-- `[rev[i:i+3] for i in range(0, len(rev), 3)]` (source line 43). -/
def chunks3 (l : List Char) : List (List Char) := chunks3Aux l.length l

/-- Python's `sep.join(chunks)`. -/
def joinSep (sep : List Char) : List (List Char) → List Char
  | [] => []
  | [c] => c
  | c :: cs => c ++ sep ++ joinSep sep cs

/-- `eur` (source lines 35-45): quantize, render with two fraction digits,
split at the decimal point, reverse the integer part, chop it into
3-character chunks, rejoin the chunks with `'.'`, reverse back, and append
`",<frac> €"`. -/
def eur (x : ℚ) : String :=
  let n := roundHalfUp (100 * x)
  let s := fmt2 n
  let whole := s.takeWhile (fun c => c != '.')
  let frac := (s.dropWhile (fun c => c != '.')).tail
  let rev := whole.reverse
  let chunks := chunks3 rev
  let whole_fmt := (joinSep ['.'] chunks).reverse
  String.mk (whole_fmt ++ ',' :: (frac ++ [' ', '€']))

/-- Read the digit characters of a number, most significant first. -/
def parseDigits (l : List Char) : ℕ :=
  l.foldl (fun acc c => 10 * acc + (c.toNat - 48)) 0

/-- Recover the numeric value from the output of `eur`: drop the trailing
`" €"`, strip the thousands separators `'.'`, split at the decimal `','`,
and read the sign, the integer part and the two fraction digits. -/
def eurParse (s : String) : ℚ :=
  let l := s.data
  let body := l.take (l.length - 2)
  let stripped := body.filter (fun c => c != '.')
  let whole := stripped.takeWhile (fun c => c != ',')
  let frac := (stripped.dropWhile (fun c => c != ',')).tail
  let neg : Bool := whole.head? = some '-'
  let digs := if neg then whole.tail else whole
  let v : ℚ := (parseDigits digs : ℚ) + (parseDigits frac : ℚ) / 100
  if neg then -v else v

/-- C2, the code's behavior at the failing input: formatting −123.45 €
yields `"-.123,45 €"` — a thousands separator appears between the sign and
the digits — instead of `"-123,45 €"` with the sign immediately before the
formatted magnitude. -/
theorem claim2_failing_input :
    eur (-123.45 : ℚ) = "-.123,45 €" ∧ ("-.123,45 €" : String) ≠ "-123,45 €" := by
  have h : roundHalfUp (100 * (-123.45 : ℚ)) = -12345 := by
    rw [show (100 : ℚ) * (-123.45) = ((-12345 : ℤ) : ℚ) by norm_num, roundHalfUp_intCast]
  constructor
  · simp only [eur]
    rw [h]
    decide
  · decide

/-! ### Digit-level facts used by the round-trip property -/

theorem digitChar_toNat {d : ℕ} (h : d < 10) : (digitChar d).toNat = 48 + d := by
  interval_cases d <;> decide

theorem digitChar_ne_dot {d : ℕ} (h : d < 10) : digitChar d ≠ '.' := by
  interval_cases d <;> decide

theorem digitChar_ne_comma {d : ℕ} (h : d < 10) : digitChar d ≠ ',' := by
  interval_cases d <;> decide

theorem digitChar_ne_dash {d : ℕ} (h : d < 10) : digitChar d ≠ '-' := by
  interval_cases d <;> decide

theorem parseDigits_append_singleton (l : List Char) (c : Char) :
    parseDigits (l ++ [c]) = 10 * parseDigits l + (c.toNat - 48) := by
  unfold parseDigits
  rw [List.foldl_append]
  rfl

theorem parseDigits_singleton {d : ℕ} (h : d < 10) : parseDigits [digitChar d] = d := by
  unfold parseDigits
  simp [List.foldl, digitChar_toNat h]

theorem wholeCharsAux_mem :
    ∀ fuel n : ℕ, n < fuel → ∀ c ∈ wholeCharsAux fuel n, ∃ d, d < 10 ∧ c = digitChar d := by
  intro fuel
  induction fuel with
  | zero => intro n h; omega
  | succ fuel ih =>
    intro n h c hc
    by_cases h10 : n < 10
    · rw [wholeCharsAux, if_pos h10] at hc
      rw [List.mem_singleton] at hc
      exact ⟨n, h10, hc⟩
    · rw [wholeCharsAux, if_neg h10] at hc
      rcases List.mem_append.mp hc with h1 | h2
      · have hdiv : n / 10 < fuel := by
          have := Nat.div_lt_self (by omega : 0 < n) (by norm_num : 1 < 10)
          omega
        exact ih (n / 10) hdiv c h1
      · rw [List.mem_singleton] at h2
        exact ⟨n % 10, Nat.mod_lt _ (by norm_num), h2⟩

theorem wholeCharsAux_parse :
    ∀ fuel n : ℕ, n < fuel → parseDigits (wholeCharsAux fuel n) = n := by
  intro fuel
  induction fuel with
  | zero => intro n h; omega
  | succ fuel ih =>
    intro n h
    by_cases h10 : n < 10
    · rw [wholeCharsAux, if_pos h10, parseDigits_singleton h10]
    · rw [wholeCharsAux, if_neg h10, parseDigits_append_singleton]
      have hdiv : n / 10 < fuel := by
        have := Nat.div_lt_self (by omega : 0 < n) (by norm_num : 1 < 10)
        omega
      rw [ih (n / 10) hdiv, digitChar_toNat (Nat.mod_lt _ (by norm_num))]
      omega

theorem wholeCharsAux_ne_nil (fuel n : ℕ) (h : n < fuel) : wholeCharsAux fuel n ≠ [] := by
  cases fuel with
  | zero => omega
  | succ fuel =>
    by_cases h10 : n < 10
    · rw [wholeCharsAux, if_pos h10]
      exact List.cons_ne_nil _ _
    · rw [wholeCharsAux, if_neg h10]
      simp

theorem wholeChars_parse (n : ℕ) : parseDigits (wholeChars n) = n :=
  wholeCharsAux_parse (n + 1) n (Nat.lt_succ_self n)

theorem wholeChars_mem (n : ℕ) : ∀ c ∈ wholeChars n, ∃ d, d < 10 ∧ c = digitChar d :=
  wholeCharsAux_mem (n + 1) n (Nat.lt_succ_self n)

theorem wholeChars_ne_nil (n : ℕ) : wholeChars n ≠ [] :=
  wholeCharsAux_ne_nil (n + 1) n (Nat.lt_succ_self n)

theorem twoFrac_parse {r : ℕ} (h : r < 100) : parseDigits (twoFrac r) = r := by
  unfold twoFrac parseDigits
  have h1 : r / 10 < 10 := by omega
  have h2 : r % 10 < 10 := Nat.mod_lt _ (by norm_num)
  simp [List.foldl, digitChar_toNat h1, digitChar_toNat h2]
  omega

theorem twoFrac_mem {r : ℕ} (h : r < 100) :
    ∀ c ∈ twoFrac r, ∃ d, d < 10 ∧ c = digitChar d := by
  intro c hc
  simp only [twoFrac, List.mem_cons, List.not_mem_nil, or_false] at hc
  rcases hc with rfl | rfl
  · exact ⟨r / 10, by omega, rfl⟩
  · exact ⟨r % 10, Nat.mod_lt _ (by norm_num), rfl⟩

theorem chunks3Aux_flatten :
    ∀ (fuel : ℕ) (l : List Char), l.length ≤ fuel → (chunks3Aux fuel l).flatten = l := by
  intro fuel
  induction fuel with
  | zero =>
    intro l h
    have hl : l = [] := List.length_eq_zero.mp (by omega)
    subst hl
    rfl
  | succ fuel ih =>
    intro l h
    cases l with
    | nil => rfl
    | cons a as =>
      rw [chunks3Aux, List.flatten_cons, ih _ (by simp at h ⊢; omega), List.take_append_drop]
      simp

theorem chunks3_flatten (l : List Char) : (chunks3 l).flatten = l :=
  chunks3Aux_flatten l.length l le_rfl

theorem filter_joinSep_dot :
    ∀ L : List (List Char), (∀ c ∈ L, ∀ a ∈ c, a ≠ '.') →
      (joinSep ['.'] L).filter (fun a => a != '.') = L.flatten := by
  intro L
  induction L with
  | nil => intro _; rfl
  | cons c cs ih =>
    intro h
    have hc : List.filter (fun a => a != '.') c = c :=
      List.filter_eq_self.mpr fun a ha => bne_iff_ne.mpr (h c (.head _) a ha)
    cases cs with
    | nil =>
      show List.filter (fun a => a != '.') c = List.flatten [c]
      rw [hc]
      simp
    | cons c2 cs2 =>
      show List.filter (fun a => a != '.') (c ++ ['.'] ++ joinSep ['.'] (c2 :: cs2)) =
        List.flatten (c :: c2 :: cs2)
      rw [List.filter_append, List.filter_append, hc,
        ih fun d hd => h d (.tail _ hd), List.flatten_cons]
      simp

theorem takeWhile_middle (p : Char → Bool) :
    ∀ (l₁ : List Char) (c : Char) (l₂ : List Char), (∀ a ∈ l₁, p a = true) → p c = false →
      (l₁ ++ c :: l₂).takeWhile p = l₁ ∧ (l₁ ++ c :: l₂).dropWhile p = c :: l₂ := by
  intro l₁
  induction l₁ with
  | nil =>
    intro c l₂ _ hc
    constructor
    · simp [List.takeWhile_cons, hc]
    · simp [List.dropWhile_cons, hc]
  | cons a as ih =>
    intro c l₂ h hc
    have ha := h a (.head _)
    obtain ⟨ht, hd⟩ := ih c l₂ (fun b hb => h b (.tail _ hb)) hc
    constructor
    · rw [List.cons_append, List.takeWhile_cons, if_pos ha, ht]
    · rw [List.cons_append, List.dropWhile_cons, if_pos ha, hd]

/-- C6 (confirmed): for every value already rounded to 2 decimals, stripping
the thousands separators out of the `eur` output, converting the decimal
`','` to `'.'`, and parsing the numeric portion (sign, integer part, two
fraction digits) reproduces the original value exactly. -/
theorem claim6_roundtrip (x : ℚ) (h : TwoDp x) : eurParse (eur x) = x := by
  obtain ⟨m, rfl⟩ := h
  have hn : roundHalfUp (100 * ((m : ℚ) / 100)) = m := by
    rw [show (100 : ℚ) * ((m : ℚ) / 100) = (m : ℚ) by ring, roundHalfUp_intCast]
  have hr : m.natAbs % 100 < 100 := Nat.mod_lt _ (by norm_num)
  have hWmem := wholeChars_mem (m.natAbs / 100)
  have hFmem := twoFrac_mem hr
  have hwhole_mem : ∀ c ∈ (if m < 0 then ['-'] else []) ++ wholeChars (m.natAbs / 100),
      c = '-' ∨ ∃ d, d < 10 ∧ c = digitChar d := by
    intro c hc
    rcases List.mem_append.mp hc with h1 | h2
    · left
      by_cases hm : m < 0
      · rw [if_pos hm, List.mem_singleton] at h1
        exact h1
      · rw [if_neg hm] at h1
        exact absurd h1 (List.not_mem_nil c)
    · exact Or.inr (hWmem c h2)
  have hwhole_nodot : ∀ c ∈ (if m < 0 then ['-'] else []) ++ wholeChars (m.natAbs / 100),
      (c != '.') = true := by
    intro c hc
    rcases hwhole_mem c hc with rfl | ⟨d, hd, rfl⟩
    · decide
    · exact bne_iff_ne.mpr (digitChar_ne_dot hd)
  have hwhole_nocomma : ∀ c ∈ (if m < 0 then ['-'] else []) ++ wholeChars (m.natAbs / 100),
      (c != ',') = true := by
    intro c hc
    rcases hwhole_mem c hc with rfl | ⟨d, hd, rfl⟩
    · decide
    · exact bne_iff_ne.mpr (digitChar_ne_comma hd)
  have hfmt : fmt2 m =
      ((if m < 0 then ['-'] else []) ++ wholeChars (m.natAbs / 100)) ++
        '.' :: twoFrac (m.natAbs % 100) := by
    simp [fmt2, List.append_assoc]
  have hsplit := takeWhile_middle (fun c => c != '.')
    ((if m < 0 then ['-'] else []) ++ wholeChars (m.natAbs / 100)) '.'
    (twoFrac (m.natAbs % 100)) hwhole_nodot (by decide)
  have heur : (eur ((m : ℚ) / 100)).data =
      (joinSep ['.'] (chunks3
        (((if m < 0 then ['-'] else []) ++ wholeChars (m.natAbs / 100)).reverse))).reverse ++
      ',' :: (twoFrac (m.natAbs % 100) ++ [' ', '€']) := by
    simp only [eur]
    rw [hn, hfmt, hsplit.1, hsplit.2]
    simp
  have hchunks_nodot : ∀ c ∈ chunks3
      (((if m < 0 then ['-'] else []) ++ wholeChars (m.natAbs / 100)).reverse),
      ∀ a ∈ c, a ≠ '.' := by
    intro c hc a hac
    have hfl : a ∈ (chunks3
        (((if m < 0 then ['-'] else []) ++ wholeChars (m.natAbs / 100)).reverse)).flatten :=
      List.mem_flatten.mpr ⟨c, hc, hac⟩
    rw [chunks3_flatten] at hfl
    have hma := List.mem_reverse.mp hfl
    rcases hwhole_mem a hma with rfl | ⟨d, hd, rfl⟩
    · decide
    · exact digitChar_ne_dot hd
  have hJ : ((joinSep ['.'] (chunks3
      (((if m < 0 then ['-'] else []) ++ wholeChars (m.natAbs / 100)).reverse))).reverse).filter
        (fun c => c != '.') =
      (if m < 0 then ['-'] else []) ++ wholeChars (m.natAbs / 100) := by
    rw [List.filter_reverse, filter_joinSep_dot _ hchunks_nodot, chunks3_flatten,
      List.reverse_reverse]
  have hcF : List.filter (fun c => c != '.') (',' :: twoFrac (m.natAbs % 100)) =
      ',' :: twoFrac (m.natAbs % 100) := by
    apply List.filter_eq_self.mpr
    intro a ha
    rcases List.mem_cons.mp ha with rfl | ha2
    · decide
    · obtain ⟨d, hd, rfl⟩ := hFmem a ha2
      exact bne_iff_ne.mpr (digitChar_ne_dot hd)
  have hsplit2 := takeWhile_middle (fun c => c != ',')
    ((if m < 0 then ['-'] else []) ++ wholeChars (m.natAbs / 100)) ','
    (twoFrac (m.natAbs % 100)) hwhole_nocomma (by decide)
  have hparseW : parseDigits (wholeChars (m.natAbs / 100)) = m.natAbs / 100 :=
    wholeChars_parse _
  have hparseF : parseDigits (twoFrac (m.natAbs % 100)) = m.natAbs % 100 := twoFrac_parse hr
  have hnum : ((m.natAbs / 100 : ℕ) : ℚ) + ((m.natAbs % 100 : ℕ) : ℚ) / 100 =
      ((m.natAbs : ℕ) : ℚ) / 100 := by
    have hdm : (m.natAbs / 100) * 100 + m.natAbs % 100 = m.natAbs := by omega
    have hq : ((m.natAbs / 100 : ℕ) : ℚ) * 100 + ((m.natAbs % 100 : ℕ) : ℚ) =
        ((m.natAbs : ℕ) : ℚ) := by exact_mod_cast hdm
    linarith
  simp only [eurParse]
  rw [heur]
  rw [show ((joinSep ['.'] (chunks3
      (((if m < 0 then ['-'] else []) ++ wholeChars (m.natAbs / 100)).reverse))).reverse ++
      ',' :: (twoFrac (m.natAbs % 100) ++ [' ', '€'])) =
    (((joinSep ['.'] (chunks3
      (((if m < 0 then ['-'] else []) ++ wholeChars (m.natAbs / 100)).reverse))).reverse ++
      ',' :: twoFrac (m.natAbs % 100)) ++ [' ', '€']) by simp]
  rw [show (((joinSep ['.'] (chunks3
      (((if m < 0 then ['-'] else []) ++ wholeChars (m.natAbs / 100)).reverse))).reverse ++
      ',' :: twoFrac (m.natAbs % 100)) ++ [' ', '€']).length - 2 =
    ((joinSep ['.'] (chunks3
      (((if m < 0 then ['-'] else []) ++ wholeChars (m.natAbs / 100)).reverse))).reverse ++
      ',' :: twoFrac (m.natAbs % 100)).length by simp; omega]
  rw [List.take_left, List.filter_append, hJ, hcF, hsplit2.1, hsplit2.2, List.tail_cons]
  by_cases hm : m < 0
  · rw [if_pos hm, List.singleton_append, List.head?_cons, List.tail_cons]
    rw [show (decide ((some '-' : Option Char) = some '-')) = true by decide]
    simp only [if_true]
    rw [hparseW, hparseF]
    have hcast : ((m.natAbs : ℕ) : ℚ) = -(m : ℚ) := by
      have h1 : ((m.natAbs : ℕ) : ℤ) = -m := by omega
      calc ((m.natAbs : ℕ) : ℚ) = (((m.natAbs : ℕ) : ℤ) : ℚ) := by rw [Int.cast_natCast]
        _ = ((-m : ℤ) : ℚ) := by rw [h1]
        _ = -(m : ℚ) := by push_cast; ring
    rw [hcast] at hnum
    linarith
  · rw [if_neg hm, List.nil_append]
    obtain ⟨c, rest, hWc⟩ : ∃ c rest, wholeChars (m.natAbs / 100) = c :: rest := by
      cases hww : wholeChars (m.natAbs / 100) with
      | nil => exact absurd hww (wholeChars_ne_nil _)
      | cons c rest => exact ⟨c, rest, rfl⟩
    obtain ⟨d, hd, hcd⟩ := hWmem c (hWc ▸ List.mem_cons_self c rest)
    rw [hWc, List.head?_cons]
    rw [show (decide ((some c : Option Char) = some '-')) = false from
      decide_eq_false (fun hco => digitChar_ne_dash hd (hcd ▸ Option.some_injective _ hco))]
    simp only [Bool.false_eq_true, if_false]
    rw [← hWc, hparseW, hparseF]
    have hcast : ((m.natAbs : ℕ) : ℚ) = (m : ℚ) := by
      have h1 : ((m.natAbs : ℕ) : ℤ) = m := by omega
      calc ((m.natAbs : ℕ) : ℚ) = (((m.natAbs : ℕ) : ℤ) : ℚ) := by rw [Int.cast_natCast]
        _ = (m : ℚ) := by rw [h1]
    rw [hcast] at hnum
    linarith

/-- C6, witness at the concrete two-decimal value 1234.56 €. -/
theorem claim6_witness :
    TwoDp (1234.56 : ℚ) ∧ eurParse (eur (1234.56 : ℚ)) = 1234.56 :=
  ⟨⟨123456, by norm_num⟩, claim6_roundtrip (1234.56 : ℚ) ⟨123456, by norm_num⟩⟩

/-- C4, witness at scenario A. -/
theorem claim4_witness :
    (berechne inputsA).ersparnis_pro_jahr_schwelle =
      (berechne inputsA).steuer_status_quo - (berechne inputsA).steuer_beim_schwellenwert ∧
    (berechne inputsA).ersparnis_gesamt_schwelle =
      quant2 ((berechne inputsA).ersparnis_pro_jahr_schwelle * (inputsA.years : ℚ)) :=
  claim4_savings inputsA

/-- C5, witness at the midpoint 12.345 (`j = 1234`): it rounds up to 12.35,
and −12.345 rounds to −12.35. -/
theorem claim5_witness :
    quant2 ((10 * ((1234 : ℕ) : ℚ) + 5) / 1000) = (((1234 : ℕ) : ℚ) + 1) / 100 ∧
    quant2 (-((10 * ((1234 : ℕ) : ℚ) + 5) / 1000)) = -((((1234 : ℕ) : ℚ) + 1) / 100) :=
  claim5_half_up 1234

/-- C8, witness at scenario B (scenario A plus `custom_verkehrswert =
600000`). -/
theorem claim8_witness :
    (berechne { inputsA with custom_verkehrswert := some 600000 }).steuer_status_quo =
      (berechne { inputsA with custom_verkehrswert := none }).steuer_status_quo ∧
    (berechne { inputsA with custom_verkehrswert := some 600000 }).steuer_beim_custom =
      some (quant2 (600000 * (inputsA.messzahl_permille / 1000) *
        (inputsA.hebesatz_prozent / 100))) :=
  ⟨(claim8_frame inputsA 600000).1, (claim8_frame inputsA 600000).2.2.2.2.2.1⟩

/-! ### Context-precision arithmetic (`getcontext().prec = 28`, source line 21)

Python `Decimal` arithmetic rounds every `+`, `-`, `*`, `/` result to the
context precision of 28 significant digits with the context default
`ROUND_HALF_EVEN`, and `quantize` signals `InvalidOperation` (raised, since
it is trapped by default) when the rounded coefficient would need more than
28 digits.  `roundSig`, `quant2X` and `berechneD` model this; the exact-ℚ
`berechne` above is the idealization valid whenever every intermediate fits
the working precision. -/

/-- Round to the nearest integer with ties to even, the context default
`ROUND_HALF_EVEN` used by `Decimal` arithmetic. -/
def roundHalfEven (x : ℚ) : ℤ :=
  if x - ⌊x⌋ < 1 / 2 then ⌊x⌋
  else if 1 / 2 < x - ⌊x⌋ then ⌊x⌋ + 1
  else if 2 ∣ ⌊x⌋ then ⌊x⌋ else ⌊x⌋ + 1

/-- Round `x` to `p` significant decimal digits, ties to even: the value a
`Decimal` arithmetic operation with exact result `x` returns at context
precision `p`.  Exact results that already fit in `p` digits are returned
unchanged. -/
def roundSig (p : ℕ) (x : ℚ) : ℚ :=
  if x = 0 then 0
  else
    (roundHalfEven (x * 10 ^ ((p : ℤ) - 1 - Int.log 10 |x|)) : ℚ) /
      10 ^ ((p : ℤ) - 1 - Int.log 10 |x|)

/-- `quantize(EURO, ROUND_HALF_UP)` with its error path: the result is the
rounded value `m` cents, except that `InvalidOperation` is raised (modelled
as `none`) when the coefficient `|m|` needs more than the 28 digits of the
working precision. -/
def quant2X (x : ℚ) : Option ℚ :=
  if (roundHalfUp (100 * x)).natAbs < 10 ^ 28 then some ((roundHalfUp (100 * x) : ℚ) / 100)
  else none

theorem roundHalfEven_intCast (m : ℤ) : roundHalfEven (m : ℚ) = m := by
  unfold roundHalfEven
  rw [Int.floor_intCast]
  rw [if_pos (by norm_num : (m : ℚ) - (m : ℚ) < 1 / 2)]

theorem abs_roundHalfEven_sub (x : ℚ) : |(roundHalfEven x : ℚ) - x| ≤ 1 / 2 := by
  unfold roundHalfEven
  have h1 : (⌊x⌋ : ℚ) ≤ x := Int.floor_le x
  have h2 : x < (⌊x⌋ : ℚ) + 1 := Int.lt_floor_add_one x
  by_cases hlt : x - (⌊x⌋ : ℚ) < 1 / 2
  · rw [if_pos hlt, abs_le]
    constructor <;> linarith
  · rw [if_neg hlt]
    by_cases hgt : (1 : ℚ) / 2 < x - (⌊x⌋ : ℚ)
    · rw [if_pos hgt, abs_le]
      constructor <;> push_cast <;> linarith
    · rw [if_neg hgt]
      have heq : x - (⌊x⌋ : ℚ) = 1 / 2 := le_antisymm (not_lt.mp hgt) (not_lt.mp hlt)
      by_cases hdvd : 2 ∣ ⌊x⌋
      · rw [if_pos hdvd, abs_le]
        constructor <;> linarith
      · rw [if_neg hdvd, abs_le]
        constructor <;> push_cast <;> linarith

theorem log10_eq (x : ℚ) (e : ℤ) (h0 : 0 < x) (h1 : (10 : ℚ) ^ e ≤ x)
    (h2 : x < (10 : ℚ) ^ (e + 1)) : Int.log 10 x = e := by
  have ha : e ≤ Int.log 10 x := (Int.zpow_le_iff_le_log (by norm_num) h0).mp h1
  have hb : ¬ (e + 1 ≤ Int.log 10 x) := fun hc =>
    absurd ((Int.zpow_le_iff_le_log (by norm_num) h0).mpr hc) (not_le.mpr h2)
  omega

theorem roundSig_zero (p : ℕ) : roundSig p 0 = 0 := by
  unfold roundSig
  rw [if_pos rfl]

theorem roundSig_eq_self (p : ℕ) (x : ℚ) (e m : ℤ) (h1 : (10 : ℚ) ^ e ≤ |x|)
    (h2 : |x| < (10 : ℚ) ^ (e + 1)) (hm : x * (10 : ℚ) ^ ((p : ℤ) - 1 - e) = (m : ℚ)) :
    roundSig p x = x := by
  have hx : x ≠ 0 := by
    intro hx0
    rw [hx0, abs_zero] at h1
    exact absurd h1 (not_le.mpr (zpow_pos (by norm_num) e))
  have hlog : Int.log 10 |x| = e := log10_eq |x| e (abs_pos.mpr hx) h1 h2
  unfold roundSig
  rw [if_neg hx, hlog, hm, roundHalfEven_intCast, ← hm]
  have hs : ((10 : ℚ) ^ ((p : ℤ) - 1 - e)) ≠ 0 := zpow_ne_zero _ (by norm_num)
  field_simp

/-- Relative error of the 28-digit context rounding: at most half an ulp,
which is at most `|x| / (2 · 10^27)`. -/
theorem abs_roundSig28_sub (x : ℚ) : |roundSig 28 x - x| * (2 * 10 ^ 27) ≤ |x| := by
  by_cases hx : x = 0
  · rw [hx, roundSig_zero]
    norm_num
  · have hxpos : 0 < |x| := abs_pos.mpr hx
    have hlog := Int.zpow_log_le_self (by norm_num : 1 < 10) hxpos
    unfold roundSig
    rw [if_neg hx]
    set e := Int.log 10 |x| with he
    set s : ℚ := (10 : ℚ) ^ ((28 : ℕ) - 1 - e : ℤ) with hs
    have hspos : 0 < s := zpow_pos (by norm_num) _
    have herr := abs_roundHalfEven_sub (x * s)
    have hdiv : (roundHalfEven (x * s) : ℚ) / s - x = ((roundHalfEven (x * s) : ℚ) - x * s) / s := by
      field_simp
      ring
    rw [hdiv, abs_div, abs_of_pos hspos]
    have hinv : (1 / 2) / s * (2 * 10 ^ 27) = 10 ^ 27 / s := by
      field_simp
      ring
    have hmul : |(roundHalfEven (x * s) : ℚ) - x * s| / s * (2 * 10 ^ 27) ≤
        (1 / 2) / s * (2 * 10 ^ 27) := by
      apply mul_le_mul_of_nonneg_right _ (by norm_num)
      exact div_le_div_of_nonneg_right herr hspos.le
    refine hmul.trans ?_
    rw [hinv]
    have hse : (10 : ℚ) ^ 27 / s = (10 : ℚ) ^ e := by
      rw [hs]
      rw [show ((28 : ℕ) - 1 - e : ℤ) = 27 - e by norm_num]
      rw [show ((10 : ℚ) ^ 27 : ℚ) = (10 : ℚ) ^ (27 : ℤ) by norm_num]
      rw [← zpow_sub₀ (by norm_num : (10 : ℚ) ≠ 0)]
      norm_num
    rw [hse]
    exact hlog

theorem abs_roundSig28_le (x : ℚ) : |roundSig 28 x| ≤ 2 * |x| := by
  have h := abs_roundSig28_sub x
  have h2 : |roundSig 28 x| - |x| ≤ |roundSig 28 x - x| := abs_sub_abs_le_abs_sub _ _
  have h3 : (0 : ℚ) ≤ |roundSig 28 x - x| := abs_nonneg _
  nlinarith

theorem abs_roundHalfUp_le (z : ℚ) : |((roundHalfUp z : ℤ) : ℚ)| ≤ |z| + 1 / 2 := by
  unfold roundHalfUp
  by_cases hz : 0 ≤ z
  · rw [if_pos hz]
    have hup : ((⌊z + 1 / 2⌋ : ℤ) : ℚ) ≤ z + 1 / 2 := Int.floor_le _
    have hlo : (0 : ℤ) ≤ ⌊z + 1 / 2⌋ := by
      rw [Int.le_floor]
      push_cast
      linarith
    rw [abs_of_nonneg (by exact_mod_cast hlo), abs_of_nonneg hz]
    linarith
  · rw [if_neg hz]
    push_neg at hz
    have hup : ((⌊-z + 1 / 2⌋ : ℤ) : ℚ) ≤ -z + 1 / 2 := Int.floor_le _
    have hlo : (0 : ℤ) ≤ ⌊-z + 1 / 2⌋ := by
      rw [Int.le_floor]
      push_cast
      linarith
    push_cast
    rw [abs_neg, abs_of_nonneg (by exact_mod_cast hlo), abs_of_neg hz]
    linarith

theorem quant2X_some {x y : ℚ} (h : quant2X x = some y) : y = quant2 x := by
  unfold quant2X at h
  by_cases hc : (roundHalfUp (100 * x)).natAbs < 10 ^ 28
  · rw [if_pos hc] at h
    exact (Option.some_injective ℚ h).symm
  · rw [if_neg hc] at h
    exact absurd h (by simp)

theorem quant2X_of_le {x : ℚ} (h : |x| ≤ 10 ^ 25) : quant2X x = some (quant2 x) := by
  unfold quant2X quant2
  rw [if_pos]
  have hb := abs_roundHalfUp_le (100 * x)
  have hcast : ((((roundHalfUp (100 * x)).natAbs : ℕ) : ℚ)) = |((roundHalfUp (100 * x) : ℤ) : ℚ)| := by
    push_cast [Int.cast_natAbs]
    norm_num
  have hlt : (((roundHalfUp (100 * x)).natAbs : ℕ) : ℚ) < ((10 ^ 28 : ℕ) : ℚ) := by
    rw [hcast]
    have : |(100 : ℚ) * x| = 100 * |x| := by
      rw [abs_mul, abs_of_nonneg (by norm_num : (0 : ℚ) ≤ 100)]
    push_cast
    nlinarith
  exact_mod_cast hlt

theorem abs_quant2_le (x : ℚ) : |quant2 x| ≤ |x| + 1 := by
  unfold quant2
  have hb := abs_roundHalfUp_le (100 * x)
  have habs : |(100 : ℚ) * x| = 100 * |x| := by
    rw [abs_mul, abs_of_nonneg (by norm_num : (0 : ℚ) ≤ 100)]
  rw [abs_div, abs_of_nonneg (by norm_num : (0 : ℚ) ≤ 100)]
  rw [habs] at hb
  linarith

/-- `berechne` with the context-precision rounding of `Decimal` arithmetic
and both failure modes: every `*`, `-`, `/` result is rounded to 28
significant digits (`roundSig`), divisions are by-zero-checked
(`checkedDiv`), and every `quantize` goes through `quant2X`, which raises
`InvalidOperation` when the rounded coefficient exceeds 28 digits. -/
def berechneD (inputs : Inputs) : Option Results := do
  let gsw := inputs.grundsteuerwert
  let mess0 ← checkedDiv inputs.messzahl_permille 1000
  let mess := roundSig 28 mess0
  let heb0 ← checkedDiv inputs.hebesatz_prozent 100
  let heb := roundSig 28 heb0
  let years := inputs.years
  let steuer_now ← quant2X (roundSig 28 (roundSig 28 (gsw * mess) * heb))
  let q ← checkedDiv gsw 1.4
  let vmax ← quant2X (roundSig 28 q)
  let steuer_vmax ← quant2X (roundSig 28 (roundSig 28 (vmax * mess) * heb))
  let ersparnis_vmax_jahr ← quant2X (roundSig 28 (steuer_now - steuer_vmax))
  let ersparnis_vmax_gesamt ← quant2X (roundSig 28 (ersparnis_vmax_jahr * (years : ℚ)))
  let res : Results :=
    { steuer_status_quo := steuer_now
      schwelle_40_prozent := vmax
      steuer_beim_schwellenwert := steuer_vmax
      ersparnis_pro_jahr_schwelle := ersparnis_vmax_jahr
      ersparnis_gesamt_schwelle := ersparnis_vmax_gesamt
      steuer_beim_custom := none
      ersparnis_pro_jahr_custom := none
      ersparnis_gesamt_custom := none }
  match inputs.custom_verkehrswert with
  | none => pure res
  | some custom =>
    let cv := custom
    let steuer_custom ← quant2X (roundSig 28 (roundSig 28 (cv * mess) * heb))
    let ersparnis_custom_jahr ← quant2X (roundSig 28 (steuer_now - steuer_custom))
    let ersparnis_custom_gesamt ← quant2X (roundSig 28 (ersparnis_custom_jahr * (years : ℚ)))
    pure { res with
      steuer_beim_custom := some steuer_custom
      ersparnis_pro_jahr_custom := some ersparnis_custom_jahr
      ersparnis_gesamt_custom := some ersparnis_custom_gesamt }

theorem optSomeBind {α β : Type} (v : α) (f : α → Option β) : (some v >>= f) = f v :=
  Eq.trans rfl rfl

theorem optNoneBind {α β : Type} (f : α → Option β) : ((none : Option α) >>= f) = none :=
  Eq.trans rfl rfl

theorem checkedDiv_eval (a b : ℚ) (hb : ¬ b = 0) : checkedDiv a b = some (a / b) := by
  unfold checkedDiv
  rw [if_neg hb]

theorem roundSig_eq_self_pos (p : ℕ) (x : ℚ) (e m : ℤ) (h1 : (10 : ℚ) ^ e ≤ x)
    (h2 : x < (10 : ℚ) ^ (e + 1)) (hm : x * (10 : ℚ) ^ ((p : ℤ) - 1 - e) = (m : ℚ)) :
    roundSig p x = x := by
  have hx : 0 < x := lt_of_lt_of_le (zpow_pos (by norm_num) e) h1
  exact roundSig_eq_self p x e m (by rw [abs_of_pos hx]; exact h1)
    (by rw [abs_of_pos hx]; exact h2) hm

theorem roundHalfUp_eval (x : ℚ) (m : ℤ) (h0 : 0 ≤ x) (h1 : (m : ℚ) ≤ 100 * x + 1 / 2)
    (h2 : 100 * x + 1 / 2 < (m : ℚ) + 1) : roundHalfUp (100 * x) = m := by
  unfold roundHalfUp
  rw [if_pos (by linarith : (0 : ℚ) ≤ 100 * x)]
  rw [Int.floor_eq_iff]
  exact ⟨h1, by linarith⟩

theorem quant2X_eval_some (x y : ℚ) (m : ℤ) (h0 : 0 ≤ x) (h1 : (m : ℚ) ≤ 100 * x + 1 / 2)
    (h2 : 100 * x + 1 / 2 < (m : ℚ) + 1) (hm : m.natAbs < 10 ^ 28)
    (hy : (m : ℚ) / 100 = y) : quant2X x = some y := by
  unfold quant2X
  rw [roundHalfUp_eval x m h0 h1 h2, if_pos hm, hy]

theorem quant2X_eval_none (x : ℚ) (m : ℤ) (h0 : 0 ≤ x) (h1 : (m : ℚ) ≤ 100 * x + 1 / 2)
    (h2 : 100 * x + 1 / 2 < (m : ℚ) + 1) (hm : ¬ m.natAbs < 10 ^ 28) : quant2X x = none := by
  unfold quant2X
  rw [roundHalfUp_eval x m h0 h1 h2, if_neg hm]

/-- The 28-digit context division `0.31 / 1000` is the exact 0.00031. -/
theorem rsMess : roundSig 28 ((0.31 : ℚ) / 1000) = 31 / 100000 := by
  rw [show (0.31 : ℚ) / 1000 = 31 / 100000 by norm_num]
  exact roundSig_eq_self_pos 28 (31 / 100000) (-4) (31 * 10 ^ 26) (by norm_num) (by norm_num)
    (by push_cast; norm_num)

/-- The 28-digit context division `470 / 100` is the exact 4.7. -/
theorem rsHeb : roundSig 28 ((470 : ℚ) / 100) = 47 / 10 := by
  rw [show (470 : ℚ) / 100 = 47 / 10 by norm_num]
  exact roundSig_eq_self_pos 28 (47 / 10) 0 (47 * 10 ^ 26) (by norm_num) (by norm_num)
    (by push_cast; norm_num)

/-- C10, counterexample to the claim as stated: for
`grundsteuerwert = 1E+30` the very first `quantize` already raises
`InvalidOperation`: `gsw · mess · heb = 1.457E+27` exactly (it fits the
working precision), but quantizing it to cents needs the 30-digit
coefficient `1457·10^26 ≥ 10^28`, so the computation fails — `compute`
does not return a `Result` for every finite-decimal input. -/
theorem claim10_counterexample28 :
    berechneD
      { grundsteuerwert := 10 ^ 30, messzahl_permille := 0.31, hebesatz_prozent := 470,
        years := 4, custom_verkehrswert := none } = none := by
  have hcd1 : checkedDiv (0.31 : ℚ) 1000 = some (0.31 / 1000) :=
    checkedDiv_eval _ _ (by norm_num)
  have hcd2 : checkedDiv (470 : ℚ) 100 = some (470 / 100) :=
    checkedDiv_eval _ _ (by norm_num)
  have hmul1 : (10 : ℚ) ^ 30 * (31 / 100000) = 31 * 10 ^ 25 := by norm_num
  have hrs3 : roundSig 28 (31 * 10 ^ 25 : ℚ) = 31 * 10 ^ 25 :=
    roundSig_eq_self_pos 28 (31 * 10 ^ 25) 26 (31 * 10 ^ 26) (by norm_num) (by norm_num)
      (by push_cast; norm_num)
  have hmul2 : (31 * 10 ^ 25 : ℚ) * (47 / 10) = 1457 * 10 ^ 24 := by norm_num
  have hrs4 : roundSig 28 (1457 * 10 ^ 24 : ℚ) = 1457 * 10 ^ 24 :=
    roundSig_eq_self_pos 28 (1457 * 10 ^ 24) 27 (1457 * 10 ^ 24) (by norm_num) (by norm_num)
      (by push_cast; norm_num)
  have hq : quant2X (1457 * 10 ^ 24 : ℚ) = none := by
    apply quant2X_eval_none (1457 * 10 ^ 24) (1457 * 10 ^ 26) (by norm_num) (by norm_num)
      (by norm_num)
    have hn : (1457 * 10 ^ 26 : ℤ).natAbs = 1457 * 10 ^ 26 := by
      rw [show (1457 * 10 ^ 26 : ℤ) = ((1457 * 10 ^ 26 : ℕ) : ℤ) by push_cast, Int.natAbs_ofNat]
    rw [hn]
    norm_num
  unfold berechneD
  simp only [hcd1, optSomeBind, hcd2, rsMess, rsHeb, hmul1, hrs3, hmul2, hrs4, hq, optNoneBind]

/-- Complete precision-faithful run at `grundsteuerwert = 7 €`: every
intermediate fits the 28-digit precision, the threshold is
`round2(7/1.4) = 5.00`. -/
theorem berechneD_seven :
    berechneD ⟨7, 0.31, 470, 4, none⟩ =
      some ⟨1 / 100, 5, 1 / 100, 0, 0, none, none, none⟩ := by
  have hcd1 : checkedDiv (0.31 : ℚ) 1000 = some (0.31 / 1000) :=
    checkedDiv_eval _ _ (by norm_num)
  have hcd2 : checkedDiv (470 : ℚ) 100 = some (470 / 100) :=
    checkedDiv_eval _ _ (by norm_num)
  have hm1 : (7 : ℚ) * (31 / 100000) = 217 / 100000 := by norm_num
  have hr1 : roundSig 28 (217 / 100000 : ℚ) = 217 / 100000 :=
    roundSig_eq_self_pos 28 (217 / 100000) (-3) (217 * 10 ^ 25) (by norm_num) (by norm_num)
      (by push_cast; norm_num)
  have hm2 : (217 / 100000 : ℚ) * (47 / 10) = 10199 / 1000000 := by norm_num
  have hr2 : roundSig 28 (10199 / 1000000 : ℚ) = 10199 / 1000000 :=
    roundSig_eq_self_pos 28 (10199 / 1000000) (-2) (10199 * 10 ^ 23) (by norm_num) (by norm_num)
      (by push_cast; norm_num)
  have hq1 : quant2X (10199 / 1000000 : ℚ) = some (1 / 100) :=
    quant2X_eval_some (10199 / 1000000) (1 / 100) 1 (by norm_num) (by norm_num) (by norm_num)
      (by norm_num) (by norm_num)
  have hcd3 : checkedDiv (7 : ℚ) 1.4 = some 5 := by
    rw [checkedDiv_eval _ _ (by norm_num)]
    norm_num
  have hr3 : roundSig 28 (5 : ℚ) = 5 :=
    roundSig_eq_self_pos 28 5 0 (5 * 10 ^ 27) (by norm_num) (by norm_num)
      (by push_cast; norm_num)
  have hq2 : quant2X (5 : ℚ) = some 5 :=
    quant2X_eval_some 5 5 500 (by norm_num) (by norm_num) (by norm_num) (by norm_num)
      (by norm_num)
  have hm3 : (5 : ℚ) * (31 / 100000) = 31 / 20000 := by norm_num
  have hr4 : roundSig 28 (31 / 20000 : ℚ) = 31 / 20000 :=
    roundSig_eq_self_pos 28 (31 / 20000) (-3) (155 * 10 ^ 25) (by norm_num) (by norm_num)
      (by push_cast; norm_num)
  have hm4 : (31 / 20000 : ℚ) * (47 / 10) = 1457 / 200000 := by norm_num
  have hr5 : roundSig 28 (1457 / 200000 : ℚ) = 1457 / 200000 :=
    roundSig_eq_self_pos 28 (1457 / 200000) (-3) (7285 * 10 ^ 24) (by norm_num) (by norm_num)
      (by push_cast; norm_num)
  have hq3 : quant2X (1457 / 200000 : ℚ) = some (1 / 100) :=
    quant2X_eval_some (1457 / 200000) (1 / 100) 1 (by norm_num) (by norm_num) (by norm_num)
      (by norm_num) (by norm_num)
  have hm5 : (1 / 100 : ℚ) - 1 / 100 = 0 := by norm_num
  have hz : roundSig 28 (0 : ℚ) = 0 := roundSig_zero 28
  have hq4 : quant2X (0 : ℚ) = some 0 :=
    quant2X_eval_some 0 0 0 (by norm_num) (by norm_num) (by norm_num) (by norm_num)
      (by norm_num)
  unfold berechneD
  simp only [hcd1, optSomeBind, hcd2, rsMess, rsHeb, hm1, hr1, hm2, hr2, hq1, hcd3, hr3, hq2,
    hm3, hr4, hm4, hr5, hq3, hm5, hz, hq4, zero_mul, Option.pure_def]

/-- Complete precision-faithful run at `grundsteuerwert = 0.007 €`: the
division 0.007/1.4 = 0.005 is exact at the working precision, and the
half-up quantization turns it into the threshold 0.01. -/
theorem berechneD_small :
    berechneD ⟨7 / 1000, 0.31, 470, 4, none⟩ =
      some ⟨0, 1 / 100, 0, 0, 0, none, none, none⟩ := by
  have hcd1 : checkedDiv (0.31 : ℚ) 1000 = some (0.31 / 1000) :=
    checkedDiv_eval _ _ (by norm_num)
  have hcd2 : checkedDiv (470 : ℚ) 100 = some (470 / 100) :=
    checkedDiv_eval _ _ (by norm_num)
  have hm1 : (7 / 1000 : ℚ) * (31 / 100000) = 217 / 100000000 := by norm_num
  have hr1 : roundSig 28 (217 / 100000000 : ℚ) = 217 / 100000000 :=
    roundSig_eq_self_pos 28 (217 / 100000000) (-6) (217 * 10 ^ 25) (by norm_num) (by norm_num)
      (by push_cast; norm_num)
  have hm2 : (217 / 100000000 : ℚ) * (47 / 10) = 10199 / 1000000000 := by norm_num
  have hr2 : roundSig 28 (10199 / 1000000000 : ℚ) = 10199 / 1000000000 :=
    roundSig_eq_self_pos 28 (10199 / 1000000000) (-5) (10199 * 10 ^ 23) (by norm_num)
      (by norm_num) (by push_cast; norm_num)
  have hq1 : quant2X (10199 / 1000000000 : ℚ) = some 0 :=
    quant2X_eval_some (10199 / 1000000000) 0 0 (by norm_num) (by norm_num) (by norm_num)
      (by norm_num) (by norm_num)
  have hcd3 : checkedDiv (7 / 1000 : ℚ) 1.4 = some (1 / 200) := by
    rw [checkedDiv_eval _ _ (by norm_num)]
    norm_num
  have hr3 : roundSig 28 (1 / 200 : ℚ) = 1 / 200 :=
    roundSig_eq_self_pos 28 (1 / 200) (-3) (5 * 10 ^ 27) (by norm_num) (by norm_num)
      (by push_cast; norm_num)
  have hq2 : quant2X (1 / 200 : ℚ) = some (1 / 100) :=
    quant2X_eval_some (1 / 200) (1 / 100) 1 (by norm_num) (by norm_num) (by norm_num)
      (by norm_num) (by norm_num)
  have hm3 : (1 / 100 : ℚ) * (31 / 100000) = 31 / 10000000 := by norm_num
  have hr4 : roundSig 28 (31 / 10000000 : ℚ) = 31 / 10000000 :=
    roundSig_eq_self_pos 28 (31 / 10000000) (-6) (31 * 10 ^ 26) (by norm_num) (by norm_num)
      (by push_cast; norm_num)
  have hm4 : (31 / 10000000 : ℚ) * (47 / 10) = 1457 / 100000000 := by norm_num
  have hr5 : roundSig 28 (1457 / 100000000 : ℚ) = 1457 / 100000000 :=
    roundSig_eq_self_pos 28 (1457 / 100000000) (-5) (1457 * 10 ^ 24) (by norm_num) (by norm_num)
      (by push_cast; norm_num)
  have hq3 : quant2X (1457 / 100000000 : ℚ) = some 0 :=
    quant2X_eval_some (1457 / 100000000) 0 0 (by norm_num) (by norm_num) (by norm_num)
      (by norm_num) (by norm_num)
  have hm5 : (0 : ℚ) - 0 = 0 := by norm_num
  have hz : roundSig 28 (0 : ℚ) = 0 := roundSig_zero 28
  have hq4 : quant2X (0 : ℚ) = some 0 :=
    quant2X_eval_some 0 0 0 (by norm_num) (by norm_num) (by norm_num) (by norm_num)
      (by norm_num)
  unfold berechneD
  simp only [hcd1, optSomeBind, hcd2, rsMess, rsHeb, hm1, hr1, hm2, hr2, hq1, hcd3, hr3, hq2,
    hm3, hr4, hm4, hr5, hq3, hm5, hz, hq4, zero_mul, Option.pure_def]

/-- C3 (amended, against the precision-faithful model): on every run of the
computation that completes, the returned threshold is `round2` of the
28-significant-digit context quotient `assessed_value / 1.4` (for sub-ulp
inputs this can differ from `round2` of the exact quotient by double
rounding), and the threshold is at most the assessed value whenever the
assessed value is a nonnegative whole number of cents; for sub-cent inputs
such as 0.007 the inequality fails (see the counterexample). -/
theorem claim3_threshold28 (i : Inputs) (r : Results) (h : berechneD i = some r) :
    r.schwelle_40_prozent = quant2 (roundSig 28 (i.grundsteuerwert / 1.4)) ∧
    (∀ k : ℕ, i.grundsteuerwert = (k : ℚ) / 100 →
      r.schwelle_40_prozent ≤ i.grundsteuerwert) := by
  have hsch : r.schwelle_40_prozent = quant2 (roundSig 28 (i.grundsteuerwert / 1.4)) := by
    unfold berechneD at h
    obtain ⟨mess0, hm0, h⟩ := Option.bind_eq_some.mp h
    obtain ⟨heb0, hh0, h⟩ := Option.bind_eq_some.mp h
    obtain ⟨snow, hsnow, h⟩ := Option.bind_eq_some.mp h
    obtain ⟨q, hq, h⟩ := Option.bind_eq_some.mp h
    obtain ⟨vm, hvm, h⟩ := Option.bind_eq_some.mp h
    obtain ⟨sv, hsv, h⟩ := Option.bind_eq_some.mp h
    obtain ⟨ej, hej, h⟩ := Option.bind_eq_some.mp h
    obtain ⟨eg, heg, h⟩ := Option.bind_eq_some.mp h
    have hq' : q = i.grundsteuerwert / 1.4 := by
      unfold checkedDiv at hq
      rw [if_neg (by norm_num : ¬ (1.4 : ℚ) = 0)] at hq
      exact (Option.some_injective ℚ hq).symm
    have hvm' : vm = quant2 (roundSig 28 (i.grundsteuerwert / 1.4)) := by
      rw [← hq']
      exact quant2X_some hvm
    cases hc : i.custom_verkehrswert with
    | none =>
      rw [hc] at h
      have hres := Option.some_injective Results h
      rw [← hres]
      exact hvm'
    | some c =>
      rw [hc] at h
      obtain ⟨sc, hsc, h⟩ := Option.bind_eq_some.mp h
      obtain ⟨ecj, hecj, h⟩ := Option.bind_eq_some.mp h
      obtain ⟨ecg, hecg, h⟩ := Option.bind_eq_some.mp h
      have hres := Option.some_injective Results h
      rw [← hres]
      exact hvm'
  refine ⟨hsch, ?_⟩
  intro k hk
  rw [hsch, hk]
  have hdiv : ((k : ℚ) / 100) / 1.4 = (k : ℚ) / 140 := by
    rw [show (1.4 : ℚ) = 7 / 5 by norm_num]
    field_simp
    ring
  rw [hdiv]
  have hkn : (0 : ℚ) ≤ (k : ℚ) := Nat.cast_nonneg k
  have hxnn : (0 : ℚ) ≤ (k : ℚ) / 140 := by positivity
  have herr := abs_roundSig28_sub ((k : ℚ) / 140)
  rw [abs_of_nonneg hxnn] at herr
  have habs : |roundSig 28 ((k : ℚ) / 140) - (k : ℚ) / 140| ≤ ((k : ℚ) / 140) / (2 * 10 ^ 27) := by
    rw [le_div_iff₀ (by norm_num : (0 : ℚ) < 2 * 10 ^ 27)]
    exact herr
  obtain ⟨hlo, hhi⟩ := abs_le.mp habs
  set y := roundSig 28 ((k : ℚ) / 140) with hy
  have hsmall : ((k : ℚ) / 140) / (2 * 10 ^ 27) ≤ (k : ℚ) / 140 := by
    nlinarith [hxnn]
  have hy0 : (0 : ℚ) ≤ 100 * y := by linarith
  unfold quant2 roundHalfUp
  rw [if_pos hy0]
  have hfl : ⌊100 * y + 1 / 2⌋ ≤ (k : ℤ) := by
    have hlt : 100 * y + 1 / 2 < (((k : ℤ) + 1 : ℤ) : ℚ) := by
      push_cast
      linarith
    have h2 := Int.floor_lt.mpr hlt
    omega
  have hcast : ((⌊100 * y + 1 / 2⌋ : ℤ) : ℚ) ≤ (((k : ℤ)) : ℚ) := by exact_mod_cast hfl
  have hfinal := div_le_div_of_nonneg_right hcast (by norm_num : (0 : ℚ) ≤ 100)
  push_cast at hfinal
  exact hfinal

/-- C3, counterexample to the claim as stated: for the sub-cent assessed
value 0.007 € the program completes and returns threshold
`round2(0.005) = 0.01 > 0.007` (here the 28-digit context division is
exact, so this is also `round2` of the exact quotient). -/
theorem claim3_counterexample28 :
    (0 : ℚ) ≤ 7 / 1000 ∧
    (berechneD ⟨7 / 1000, 0.31, 470, 4, none⟩).map Results.schwelle_40_prozent =
      some (1 / 100) ∧
    ¬ ((1 : ℚ) / 100 ≤ 7 / 1000) := by
  refine ⟨by norm_num, ?_, by norm_num⟩
  rw [berechneD_small]
  rfl

/-- C3, witness at the whole-cent input 7 € (700 cents): the faithful run
completes with threshold 5.00 = `round2` of the context quotient, and
5.00 ≤ 7. -/
theorem claim3_witness28 :
    berechneD ⟨7, 0.31, 470, 4, none⟩ =
      some ⟨1 / 100, 5, 1 / 100, 0, 0, none, none, none⟩ ∧
    (5 : ℚ) = quant2 (roundSig 28 ((7 : ℚ) / 1.4)) ∧
    (5 : ℚ) ≤ 7 := by
  refine ⟨berechneD_seven, ?_, ?_⟩
  · exact (claim3_threshold28 ⟨7, 0.31, 470, 4, none⟩
      ⟨1 / 100, 5, 1 / 100, 0, 0, none, none, none⟩ berechneD_seven).1
  · exact (claim3_threshold28 ⟨7, 0.31, 470, 4, none⟩
      ⟨1 / 100, 5, 1 / 100, 0, 0, none, none, none⟩ berechneD_seven).2 700
      (by show (7 : ℚ) = ((700 : ℕ) : ℚ) / 100; push_cast; norm_num)

theorem abs_sub_le_abs_add_abs (a b : ℚ) : |a - b| ≤ |a| + |b| := by
  rw [sub_eq_add_neg]
  calc |a + -b| ≤ |a| + |-b| := abs_add _ _
    _ = |a| + |b| := by rw [abs_neg]

/-- A tax step `quant2 (rs (rs (g·M)·H))` succeeds and stays below `10^18`
when the value, the mess factor and the heb factor are bounded. -/
theorem quant2X_mul_step (g M H : ℚ) (hg : |g| ≤ 10 ^ 13) (hM : |M| ≤ 2) (hH : |H| ≤ 2000) :
    quant2X (roundSig 28 (roundSig 28 (g * M) * H)) =
      some (quant2 (roundSig 28 (roundSig 28 (g * M) * H))) ∧
    |quant2 (roundSig 28 (roundSig 28 (g * M) * H))| ≤ 10 ^ 18 := by
  have h1 : |g * M| ≤ 10 ^ 13 * 2 := by
    rw [abs_mul]
    exact mul_le_mul hg hM (abs_nonneg _) (by norm_num)
  have h2 := abs_roundSig28_le (g * M)
  have h3 : |roundSig 28 (g * M) * H| ≤ (2 * (10 ^ 13 * 2)) * 2000 := by
    rw [abs_mul]
    exact mul_le_mul (by linarith) hH (abs_nonneg _) (by norm_num)
  have h4 := abs_roundSig28_le (roundSig 28 (g * M) * H)
  have h5 : |roundSig 28 (roundSig 28 (g * M) * H)| ≤ 10 ^ 25 := by linarith
  refine ⟨quant2X_of_le h5, ?_⟩
  have h6 := abs_quant2_le (roundSig 28 (roundSig 28 (g * M) * H))
  linarith

/-- The threshold step `quant2 (rs (g / 1.4))` succeeds and stays below
`10^13` for a bounded assessed value. -/
theorem quant2X_div_step (g : ℚ) (hg : |g| ≤ 10 ^ 12) :
    quant2X (roundSig 28 (g / 1.4)) = some (quant2 (roundSig 28 (g / 1.4))) ∧
    |quant2 (roundSig 28 (g / 1.4))| ≤ 10 ^ 13 := by
  have h1 : |g / 1.4| ≤ 10 ^ 12 := by
    rw [abs_div, abs_of_pos (by norm_num : (0 : ℚ) < (1.4 : ℚ))]
    exact (div_le_self (abs_nonneg g) (by norm_num : (1 : ℚ) ≤ 1.4)).trans hg
  have h2 := abs_roundSig28_le (g / 1.4)
  have h3 : |roundSig 28 (g / 1.4)| ≤ 10 ^ 25 := by linarith
  refine ⟨quant2X_of_le h3, ?_⟩
  have h4 := abs_quant2_le (roundSig 28 (g / 1.4))
  linarith

/-- The savings steps — per-year difference and total over the years —
succeed for bounded operands. -/
theorem quant2X_sub_step (a b y : ℚ) (ha : |a| ≤ 10 ^ 18) (hb : |b| ≤ 10 ^ 18)
    (hy : |y| ≤ 10 ^ 3) :
    quant2X (roundSig 28 (a - b)) = some (quant2 (roundSig 28 (a - b))) ∧
    quant2X (roundSig 28 (quant2 (roundSig 28 (a - b)) * y)) =
      some (quant2 (roundSig 28 (quant2 (roundSig 28 (a - b)) * y))) := by
  have h1 : |a - b| ≤ 10 ^ 18 + 10 ^ 18 := (abs_sub_le_abs_add_abs a b).trans (by linarith)
  have h2 := abs_roundSig28_le (a - b)
  have h3 : |roundSig 28 (a - b)| ≤ 10 ^ 25 := by linarith
  have h4 := abs_quant2_le (roundSig 28 (a - b))
  have h5 : |quant2 (roundSig 28 (a - b)) * y| ≤ (2 * (10 ^ 18 + 10 ^ 18) + 1) * 10 ^ 3 := by
    rw [abs_mul]
    exact mul_le_mul (by linarith) hy (abs_nonneg _) (by norm_num)
  have h6 := abs_roundSig28_le (quant2 (roundSig 28 (a - b)) * y)
  have h7 : |roundSig 28 (quant2 (roundSig 28 (a - b)) * y)| ≤ 10 ^ 25 := by linarith
  exact ⟨quant2X_of_le h3, quant2X_of_le h7⟩

/-- C10 (amended): no division of the computation can fail — each divisor
is one of the fixed nonzero constants 1000, 100, 1.4, so the
division-failure-aware model always returns `berechne`'s result — but the
computation as a whole is not total: `quantize` raises `InvalidOperation`
for oversized inputs (see the counterexample at `1E+30`); within the
stated realistic input bounds every `quantize` coefficient fits the
28-digit working precision and the precision-faithful computation returns
a `Result`. -/
theorem claim10_bounded_total (i : Inputs) :
    berechneE i = some (berechne i) ∧
    (|i.grundsteuerwert| ≤ 10 ^ 12 → |i.messzahl_permille| ≤ 10 ^ 3 →
      |i.hebesatz_prozent| ≤ 10 ^ 5 → |(i.years : ℚ)| ≤ 10 ^ 3 →
      (∀ cv, i.custom_verkehrswert = some cv → |cv| ≤ 10 ^ 12) →
      (berechneD i).isSome = true) := by
  refine ⟨berechneE_eq i, ?_⟩
  intro h1 h2 h3 h4 h5
  have hc1 : checkedDiv i.messzahl_permille 1000 = some (i.messzahl_permille / 1000) :=
    checkedDiv_eval _ _ (by norm_num)
  have hc2 : checkedDiv i.hebesatz_prozent 100 = some (i.hebesatz_prozent / 100) :=
    checkedDiv_eval _ _ (by norm_num)
  have hc3 : checkedDiv i.grundsteuerwert 1.4 = some (i.grundsteuerwert / 1.4) :=
    checkedDiv_eval _ _ (by norm_num)
  have hbM : |roundSig 28 (i.messzahl_permille / 1000)| ≤ 2 := by
    have hd : |i.messzahl_permille / 1000| ≤ 1 := by
      rw [abs_div, abs_of_pos (by norm_num : (0 : ℚ) < (1000 : ℚ))]
      rw [div_le_one (by norm_num : (0 : ℚ) < (1000 : ℚ))]
      linarith
    have hr := abs_roundSig28_le (i.messzahl_permille / 1000)
    linarith
  have hbH : |roundSig 28 (i.hebesatz_prozent / 100)| ≤ 2000 := by
    have hd : |i.hebesatz_prozent / 100| ≤ 1000 := by
      rw [abs_div, abs_of_pos (by norm_num : (0 : ℚ) < (100 : ℚ))]
      rw [div_le_iff₀ (by norm_num : (0 : ℚ) < (100 : ℚ))]
      linarith
    have hr := abs_roundSig28_le (i.hebesatz_prozent / 100)
    linarith
  obtain ⟨hq1, hbS1⟩ := quant2X_mul_step i.grundsteuerwert
    (roundSig 28 (i.messzahl_permille / 1000)) (roundSig 28 (i.hebesatz_prozent / 100))
    (h1.trans (by norm_num)) hbM hbH
  obtain ⟨hq2, hbV⟩ := quant2X_div_step i.grundsteuerwert h1
  obtain ⟨hq3, hbS3⟩ := quant2X_mul_step (quant2 (roundSig 28 (i.grundsteuerwert / 1.4)))
    (roundSig 28 (i.messzahl_permille / 1000)) (roundSig 28 (i.hebesatz_prozent / 100))
    hbV hbM hbH
  obtain ⟨hq4, hq5⟩ := quant2X_sub_step
    (quant2 (roundSig 28 (roundSig 28 (i.grundsteuerwert *
      roundSig 28 (i.messzahl_permille / 1000)) * roundSig 28 (i.hebesatz_prozent / 100))))
    (quant2 (roundSig 28 (roundSig 28 (quant2 (roundSig 28 (i.grundsteuerwert / 1.4)) *
      roundSig 28 (i.messzahl_permille / 1000)) * roundSig 28 (i.hebesatz_prozent / 100))))
    ((i.years : ℚ)) hbS1 hbS3 h4
  unfold berechneD
  simp only [hc1, optSomeBind, hc2, hc3, hq1, hq2, hq3, hq4, hq5]
  cases hcv : i.custom_verkehrswert with
  | none => rfl
  | some c =>
    obtain ⟨hk6, hbSc⟩ := quant2X_mul_step c
      (roundSig 28 (i.messzahl_permille / 1000)) (roundSig 28 (i.hebesatz_prozent / 100))
      ((h5 c hcv).trans (by norm_num)) hbM hbH
    obtain ⟨hk7, hk8⟩ := quant2X_sub_step
      (quant2 (roundSig 28 (roundSig 28 (i.grundsteuerwert *
        roundSig 28 (i.messzahl_permille / 1000)) * roundSig 28 (i.hebesatz_prozent / 100))))
      (quant2 (roundSig 28 (roundSig 28 (c *
        roundSig 28 (i.messzahl_permille / 1000)) * roundSig 28 (i.hebesatz_prozent / 100))))
      ((i.years : ℚ)) hbS1 hbSc h4
    simp only [hk6, optSomeBind, hk7, hk8]
    rfl

/-- C10, witness at scenario A: the divisions never fail, and the
precision-faithful run at scenario A completes. -/
theorem claim10_witness28 :
    berechneE inputsA = some (berechne inputsA) ∧ (berechneD inputsA).isSome = true := by
  refine ⟨(claim10_bounded_total inputsA).1, (claim10_bounded_total inputsA).2 ?_ ?_ ?_ ?_ ?_⟩
  · rw [show inputsA.grundsteuerwert = (1031600 : ℚ) from rfl,
      abs_of_pos (by norm_num : (0 : ℚ) < 1031600)]
    norm_num
  · rw [show inputsA.messzahl_permille = (0.31 : ℚ) from rfl,
      abs_of_pos (by norm_num : (0 : ℚ) < (0.31 : ℚ))]
    norm_num
  · rw [show inputsA.hebesatz_prozent = (470 : ℚ) from rfl,
      abs_of_pos (by norm_num : (0 : ℚ) < 470)]
    norm_num
  · rw [show ((inputsA.years : ℚ)) = (4 : ℚ) by norm_num [inputsA],
      abs_of_pos (by norm_num : (0 : ℚ) < 4)]
    norm_num
  · intro cv hcv
    exact absurd hcv (by simp [inputsA])

end Grundsteuer
